import Mathlib

/-!
Verification of the surfrad SURFRAD station-data parser.

Shallow embedding conventions:
* Go `float64` values are modelled as exact rationals (`ℚ`); every numeric
  literal occurring in the program and in the data lines of interest is an
  exact decimal, so sentinel comparisons (`== -9999.9`) behave identically.
* Go `int` is modelled as unbounded `Int` (no token in the format approaches
  the 64-bit range).
* `time.Time` is modelled as the absolute number of seconds since
  0001-01-01T00:00:00 UTC (`Int`); the zero `time.Time` is `0`, matching
  `Time.IsZero`.  `time.Date` is modelled with Go's argument normalisation
  (floored div/mod) followed by proleptic-Gregorian day counting.
* An input stream is the list of its scanned lines (`bufio.Scanner` with the
  default line splitter).
* Go's `error` results are modelled by `Option Err` / `List Err`;
  `errors.Join` of a list of errors is modelled by list concatenation, with
  `[]` playing the role of `nil`.
-/

/-- ASCII whitespace recognised by `strings.Fields` / `strings.TrimSpace`
(the data format only ever contains these). -/
def isGoSpace (c : Char) : Bool :=
  c = ' ' || c = '\t' || c = '\n' || c = '\x0b' || c = '\x0c' || c = '\r'

/-- Accumulator-style splitter backing `goFields`. -/
def fieldsAux : List Char → List Char → List (List Char)
  | [], acc => if acc.isEmpty then [] else [acc.reverse]
  | c :: cs, acc =>
    if isGoSpace c then
      if acc.isEmpty then fieldsAux cs [] else acc.reverse :: fieldsAux cs []
    else fieldsAux cs (c :: acc)

/-- `strings.Fields`: split around runs of whitespace. -/
def goFields (s : String) : List String :=
  (fieldsAux s.toList []).map String.mk

/-- `strings.TrimSpace`. -/
def trimSpace (s : String) : String :=
  String.mk (((s.toList.dropWhile isGoSpace).reverse.dropWhile isGoSpace).reverse)

/-- Decimal digit test. -/
def isDigitCh (c : Char) : Bool := '0' ≤ c && c ≤ '9'

/-- Fold a digit string into a natural number. -/
def digitsToNat : List Char → Nat → Nat
  | [], acc => acc
  | c :: cs, acc => digitsToNat cs (acc * 10 + (c.toNat - 48))

/-- `strconv.Atoi`: optional sign followed by one or more digits. -/
def atoiOpt (s : String) : Option Int :=
  let cs := s.toList
  let sg : Int := if cs.head? = some '-' then -1 else 1
  let ds := if cs.head? = some '-' || cs.head? = some '+' then cs.tail else cs
  if ds.isEmpty || !(ds.all isDigitCh) then none
  else some (sg * (digitsToNat ds 0 : Int))

/-- `strconv.ParseFloat` on the decimal grammar used by the SURFRAD format:
optional sign, digits with an optional fractional part, optional exponent
(`Inf`/`NaN`/hex floats are outside the data format and outside `ℚ`). -/
def parseFloatOpt (s : String) : Option ℚ :=
  let cs := s.toList
  if cs.isEmpty then none else
  let neg : Bool := cs.head? = some '-'
  let cs := if cs.head? = some '-' || cs.head? = some '+' then cs.tail else cs
  let ip := cs.takeWhile isDigitCh
  let cs1 := cs.dropWhile isDigitCh
  let fp := if cs1.head? = some '.' then cs1.tail.takeWhile isDigitCh else []
  let cs2 := if cs1.head? = some '.' then cs1.tail.dropWhile isDigitCh else cs1
  if ip.isEmpty && fp.isEmpty then none else
  let n : Int := (digitsToNat (ip ++ fp) 0 : Int)
  let m : Int := if neg then -n else n
  match cs2 with
  | [] => some (mkRat m ((10 : Nat) ^ fp.length))
  | e :: t =>
    if e = 'e' || e = 'E' then
      let eneg : Bool := t.head? = some '-'
      let ed := if t.head? = some '-' || t.head? = some '+' then t.tail else t
      if ed.isEmpty || !(ed.all isDigitCh) then none
      else
        let ex := digitsToNat ed 0
        if eneg then some (mkRat m ((10 : Nat) ^ (fp.length + ex)))
        else some (mkRat (m * (((10 : Nat) ^ ex : Nat) : Int)) ((10 : Nat) ^ fp.length))
    else none

/-- The unexported `parseFloat` helper: parse failure degrades to `0`. -/
def parseFloat (s : String) : ℚ := (parseFloatOpt s).getD 0

/-- A Go `[3]rune` station identifier. -/
abbrev StationID := Char × Char × Char

/-- The `StationIDToName` map literal (association list, 7 stations). -/
def StationIDToName : List (StationID × String) :=
  [(('b', 'o', 'n'), "Bondville"),
   (('f', 'p', 'k'), "Fort Peck"),
   (('g', 'w', 'n'), "Goodwin Creek"),
   (('t', 'b', 'l'), "Table Mountain"),
   (('d', 'r', 'a'), "Desert Rock"),
   (('p', 's', 'u'), "Penn State"),
   (('s', 'x', 'f'), "Sioux Falls")]

/-- The `NameToStationID` map literal. -/
def NameToStationID : List (String × StationID) :=
  [("Bondville", ('b', 'o', 'n')),
   ("Fort Peck", ('f', 'p', 'k')),
   ("Goodwin Creek", ('g', 'w', 'n')),
   ("Table Mountain", ('t', 'b', 'l')),
   ("Desert Rock", ('d', 'r', 'a')),
   ("Penn State", ('p', 's', 'u')),
   ("Sioux Falls", ('s', 'x', 'f'))]

/-- `GetStationName`: map lookup with its found flag folded into `Option`. -/
def GetStationName (sid : StationID) : Option String :=
  StationIDToName.lookup sid

/-- `GetStationID`. -/
def GetStationID (sn : String) : Option StationID :=
  NameToStationID.lookup sn

/-- `ValidateStationName` / `StationName.Valid`. -/
def ValidateStationName (sn : String) : Bool := (GetStationID sn).isSome

/-- `ValidateStationID` / `StationID.Valid`. -/
def ValidateStationID (sid : StationID) : Bool := (GetStationName sid).isSome

/-- Days since 0001-01-01 relative to the 1970 epoch (civil-from-days
algorithm over the proleptic Gregorian calendar, floored division). -/
def daysFromCivil (y m d : Int) : Int :=
  let yy := if m ≤ 2 then y - 1 else y
  let era := yy.fdiv 400
  let yoe := yy - era * 400
  let mp := (m + 9).fmod 12
  let doy := (153 * mp + 2).fdiv 5 + d - 1
  let doe := yoe * 365 + yoe.fdiv 4 - yoe.fdiv 100 + doy
  era * 146097 + doe - 719468

/-- `time.Date(year, month, day, hour, minute, sec, 0, time.UTC)` as absolute
seconds since 0001-01-01T00:00:00 UTC, including Go's normalisation of
out-of-range arguments by floored division. -/
def goDate (year month day hour minute sec : Int) : Int :=
  let minute1 := minute + sec.fdiv 60
  let sec1 := sec.fmod 60
  let hour1 := hour + minute1.fdiv 60
  let minute2 := minute1.fmod 60
  let day1 := day + hour1.fdiv 24
  let hour2 := hour1.fmod 24
  let m0 := month - 1
  let year1 := year + m0.fdiv 12
  let m1 := m0.fmod 12
  (daysFromCivil year1 (m1 + 1) day1 + 719162) * 86400
    + hour2 * 3600 + minute2 * 60 + sec1

/-- `RawEntryTime`: timestamp components as read from the line. -/
structure RawEntryTime where
  Year : Int
  Month : Int
  Day : Int
  JDay : Int
  Hour : Int
  Minute : Int
  Decimal : ℚ
deriving DecidableEq

/-- `Location`. -/
structure Location where
  Latitude : ℚ
  Longitude : ℚ
  Elevation : Int
deriving DecidableEq

/-- `Data`: one decoded entry.  `Timestamp` is the `time.Time` model (absolute
seconds, `0` = the zero `time.Time`). -/
structure Data where
  RawTimestamp : RawEntryTime
  Timestamp : Int
  SolarZenithAngle : ℚ
  DownwellingSolar : ℚ
  UpwellingSolar : ℚ
  DirectNormalSolar : ℚ
  DownwellingDiffuseSolar : ℚ
  DownwellingIR : ℚ
  DownwellingIRCaseTemp : ℚ
  DownwellingIRDomeTemp : ℚ
  UpwellingIR : ℚ
  UpwellingIRCaseTemp : ℚ
  UpwellingIRDomeTemp : ℚ
  GlobalUVB : ℚ
  PhotosyntheticallyActiveRadiation : ℚ
  NetSolar : ℚ
  NetIR : ℚ
  TotalNetRadiation : ℚ
  TemperatureC : ℚ
  RelativeHumidity : ℚ
  WindSpeedMetersPerSecond : ℚ
  WindDirectionDegrees : ℚ
  BarometricPressure : ℚ
deriving DecidableEq

/-- The zero `Data` value produced by `new(Data)`. -/
def Data.empty : Data :=
  ⟨⟨0, 0, 0, 0, 0, 0, 0⟩, 0,
   0, 0, 0, 0, 0, 0, 0, 0, 0, 0, 0, 0, 0, 0, 0, 0, 0, 0, 0, 0, 0⟩

/-- `Station`. -/
structure Station where
  StationName : String
  LocatedAt : Location
  Version : Int
  Entries : List Data
deriving DecidableEq

/-- The zero `Station` value produced by `new(Station)`. -/
def Station.empty : Station := ⟨"", ⟨0, 0, 0⟩, 0, []⟩

/-- The error values the parser can record, keyed by the `fmt.Errorf` call
sites of the source (payloads keep the data interpolated there). -/
inductive Err where
  | invalidStationName (name : String)
  | invalidHeaderLength (fields : List String)
  | latParse (tok : String)
  | lonParse (tok : String)
  | elevParse (tok : String)
  | versionParse (tok : String)
  | incompleteTimestamp (fields : List String)
  | atoiFail (tok : String)
  | shortLine (lineNo : Nat)
  | incompleteRecord (fields : List String)
deriving DecidableEq

/-- The float-field transform the reflection loop of `OmitInvalidOrMissing`
applies: a value exactly equal to the sentinel `-9999.9` becomes `0`.
`sentinelF` is the exact value of the Go literal `-9999.9`. -/
def sentinelF : ℚ := mkRat (-99999) 10

def normF (x : ℚ) : ℚ := if x = sentinelF then 0 else x

/-- The `time.Time` branch of the reflection loop: a zero time is overwritten
with the zero time (an identity, kept to mirror the code). -/
def normT (t : Int) : Int := if t = 0 then 0 else t

/-- `(*Data).OmitInvalidOrMissing`.  The reflection loop visits only the
top-level fields of `Data`: the 21 `float64` measurements get the sentinel
rewrite, `Timestamp` gets the (no-op) zero-time rewrite, and `RawTimestamp`
is a nested struct — its kind matches neither `Float64` nor `Int`, and the
`time.Time` type switch fails on it — so its components are left untouched.
`Data` has no top-level `Int` field, so the integer branch of the loop never
fires. -/
def OmitInvalidOrMissing (d : Data) : Data :=
  { d with
    Timestamp := normT d.Timestamp
    SolarZenithAngle := normF d.SolarZenithAngle
    DownwellingSolar := normF d.DownwellingSolar
    UpwellingSolar := normF d.UpwellingSolar
    DirectNormalSolar := normF d.DirectNormalSolar
    DownwellingDiffuseSolar := normF d.DownwellingDiffuseSolar
    DownwellingIR := normF d.DownwellingIR
    DownwellingIRCaseTemp := normF d.DownwellingIRCaseTemp
    DownwellingIRDomeTemp := normF d.DownwellingIRDomeTemp
    UpwellingIR := normF d.UpwellingIR
    UpwellingIRCaseTemp := normF d.UpwellingIRCaseTemp
    UpwellingIRDomeTemp := normF d.UpwellingIRDomeTemp
    GlobalUVB := normF d.GlobalUVB
    PhotosyntheticallyActiveRadiation := normF d.PhotosyntheticallyActiveRadiation
    NetSolar := normF d.NetSolar
    NetIR := normF d.NetIR
    TotalNetRadiation := normF d.TotalNetRadiation
    TemperatureC := normF d.TemperatureC
    RelativeHumidity := normF d.RelativeHumidity
    WindSpeedMetersPerSecond := normF d.WindSpeedMetersPerSecond
    WindDirectionDegrees := normF d.WindDirectionDegrees
    BarometricPressure := normF d.BarometricPressure }

/-- `(*Data).ParseTimestamp`: six `Atoi` fields (each assigned before its
error check, since Go's `Atoi` yields `0` alongside an error), the lenient
decimal-time field, then the derived `time.Date` timestamp. -/
def ParseTimestamp (d : Data) (fields : List String) : Data × Option Err :=
  if fields.length < 7 then (d, some (Err.incompleteTimestamp fields)) else
  let t0 := fields.getD 0 ""
  let y := atoiOpt t0
  let d := { d with RawTimestamp.Year := y.getD 0 }
  if y.isNone then (d, some (Err.atoiFail t0)) else
  let t1 := fields.getD 1 ""
  let jd := atoiOpt t1
  let d := { d with RawTimestamp.JDay := jd.getD 0 }
  if jd.isNone then (d, some (Err.atoiFail t1)) else
  let t2 := fields.getD 2 ""
  let mo := atoiOpt t2
  let d := { d with RawTimestamp.Month := mo.getD 0 }
  if mo.isNone then (d, some (Err.atoiFail t2)) else
  let t3 := fields.getD 3 ""
  let dy := atoiOpt t3
  let d := { d with RawTimestamp.Day := dy.getD 0 }
  if dy.isNone then (d, some (Err.atoiFail t3)) else
  let t4 := fields.getD 4 ""
  let hr := atoiOpt t4
  let d := { d with RawTimestamp.Hour := hr.getD 0 }
  if hr.isNone then (d, some (Err.atoiFail t4)) else
  let t5 := fields.getD 5 ""
  let mi := atoiOpt t5
  let d := { d with RawTimestamp.Minute := mi.getD 0 }
  if mi.isNone then (d, some (Err.atoiFail t5)) else
  let d := { d with RawTimestamp.Decimal := parseFloat (fields.getD 6 "") }
  let ts := goDate d.RawTimestamp.Year d.RawTimestamp.Month d.RawTimestamp.Day
    d.RawTimestamp.Hour d.RawTimestamp.Minute 0
  let d := { d with Timestamp := ts }
  (d, none)

/-- One arm of the `switch i` inside `ParseLine`'s `range fields` loop:
positions 7–46 assign the mapped measurement (even positions, plus 7);
the commented-out quality-control positions and everything else fall
through to the default and leave the entry unchanged. -/
def applyField (d : Data) (i : Nat) (tok : String) : Data :=
  if i = 7 then { d with SolarZenithAngle := parseFloat tok }
  else if i = 8 then { d with DownwellingSolar := parseFloat tok }
  else if i = 10 then { d with UpwellingSolar := parseFloat tok }
  else if i = 12 then { d with DirectNormalSolar := parseFloat tok }
  else if i = 14 then { d with DownwellingDiffuseSolar := parseFloat tok }
  else if i = 16 then { d with DownwellingIR := parseFloat tok }
  else if i = 18 then { d with DownwellingIRCaseTemp := parseFloat tok }
  else if i = 20 then { d with DownwellingIRDomeTemp := parseFloat tok }
  else if i = 22 then { d with UpwellingIR := parseFloat tok }
  else if i = 24 then { d with UpwellingIRCaseTemp := parseFloat tok }
  else if i = 26 then { d with UpwellingIRDomeTemp := parseFloat tok }
  else if i = 28 then { d with GlobalUVB := parseFloat tok }
  else if i = 30 then { d with PhotosyntheticallyActiveRadiation := parseFloat tok }
  else if i = 32 then { d with NetSolar := parseFloat tok }
  else if i = 34 then { d with NetIR := parseFloat tok }
  else if i = 36 then { d with TotalNetRadiation := parseFloat tok }
  else if i = 38 then { d with TemperatureC := parseFloat tok }
  else if i = 40 then { d with RelativeHumidity := parseFloat tok }
  else if i = 42 then { d with WindSpeedMetersPerSecond := parseFloat tok }
  else if i = 44 then { d with WindDirectionDegrees := parseFloat tok }
  else if i = 46 then { d with BarometricPressure := parseFloat tok }
  else d

/-- The `for i, field := range fields` loop, carrying the running index. -/
def applyFields (d : Data) (i : Nat) : List String → Data
  | [] => d
  | t :: rest => applyFields (applyField d i t) (i + 1) rest

/-- `ParseLine`. -/
def ParseLine (fields : List String) : Data × Option Err :=
  match ParseTimestamp Data.empty fields with
  | (d, some e) => (d, some e)
  | (d, none) =>
    let d := applyFields d 0 fields
    let e := if fields.length < 47 then some (Err.incompleteRecord fields) else none
    (OmitInvalidOrMissing d, e)

/-- `(*Station).ParseHeader`: returns the updated station, the joined error
list, and the `ok` flag that tells `ReadData` whether to keep going. -/
def ParseHeader (s : Station) (headerInfo : List String) :
    Station × List Err × Bool :=
  let errs : List Err :=
    if headerInfo.length < 6 then [Err.invalidHeaderLength headerInfo] else []
  if headerInfo.length = 0 then (s, errs, false) else
  let h0 := headerInfo.getD 0 ""
  let lat := parseFloatOpt h0
  let s := { s with LocatedAt.Latitude := lat.getD 0 }
  let errs := errs ++ (if lat.isNone then [Err.latParse h0] else [])
  if headerInfo.length = 1 then (s, errs, false) else
  let h1 := headerInfo.getD 1 ""
  let lon := parseFloatOpt h1
  let s := { s with LocatedAt.Longitude := lon.getD 0 }
  let errs := errs ++ (if lon.isNone then [Err.lonParse h1] else [])
  if headerInfo.length = 2 then (s, errs, false) else
  let h2 := headerInfo.getD 2 ""
  let elev := atoiOpt h2
  let s := { s with LocatedAt.Elevation := elev.getD 0 }
  let errs := errs ++ (if elev.isNone then [Err.elevParse h2] else [])
  if headerInfo.length < 6 then (s, errs, false) else
  let h5 := headerInfo.getD 5 ""
  let ver := atoiOpt h5
  let s := { s with Version := ver.getD 0 }
  let errs := errs ++ (if ver.isNone then [Err.versionParse h5] else [])
  (s, errs, true)

/-- The data-line loop of `ReadData`: `lineNo` is incremented before each
line is examined, lines under 29 tokens are skipped with a `shortLine`
error, decoder errors skip the entry, successes are appended in order. -/
def processLines (lines : List String) (lineNo : Nat) : List Data × List Err :=
  match lines with
  | [] => ([], [])
  | l :: rest =>
    let n := lineNo + 1
    let fs := goFields l
    if fs.length < 29 then
      let p := processLines rest n
      (p.1, Err.shortLine n :: p.2)
    else
      match ParseLine fs with
      | (_, some e) =>
        let p := processLines rest n
        (p.1, e :: p.2)
      | (d, none) =>
        let p := processLines rest n
        (d :: p.1, p.2)

/-- `ReadData` on the scanned lines of the stream. -/
def ReadData (lines : List String) : Station × List Err :=
  match lines with
  | [] => (Station.empty, [])
  | first :: rest =>
    let name := trimSpace first
    let st := { Station.empty with StationName := name }
    let errs0 : List Err :=
      if ValidateStationName name then [] else [Err.invalidStationName name]
    match rest with
    | [] => (st, errs0)
    | hdr :: dataLines =>
      match ParseHeader st (goFields hdr) with
      | (st, herrs, ok) =>
        let errs1 := errs0 ++ herrs
        if ok then
          let p := processLines dataLines 0
          ({ st with Entries := p.1 }, errs1 ++ p.2)
        else (st, errs1)

/-- The measurement positions of the line format: 7 and the even positions
8–46, in mapping order. -/
def measPositions : List Nat :=
  [7, 8, 10, 12, 14, 16, 18, 20, 22, 24, 26, 28,
   30, 32, 34, 36, 38, 40, 42, 44, 46]

/-- Read the measurement mapped at position `i` back out of an entry
(`0` for unmapped positions). -/
def mval (d : Data) (i : Nat) : ℚ :=
  if i = 7 then d.SolarZenithAngle
  else if i = 8 then d.DownwellingSolar
  else if i = 10 then d.UpwellingSolar
  else if i = 12 then d.DirectNormalSolar
  else if i = 14 then d.DownwellingDiffuseSolar
  else if i = 16 then d.DownwellingIR
  else if i = 18 then d.DownwellingIRCaseTemp
  else if i = 20 then d.DownwellingIRDomeTemp
  else if i = 22 then d.UpwellingIR
  else if i = 24 then d.UpwellingIRCaseTemp
  else if i = 26 then d.UpwellingIRDomeTemp
  else if i = 28 then d.GlobalUVB
  else if i = 30 then d.PhotosyntheticallyActiveRadiation
  else if i = 32 then d.NetSolar
  else if i = 34 then d.NetIR
  else if i = 36 then d.TotalNetRadiation
  else if i = 38 then d.TemperatureC
  else if i = 40 then d.RelativeHumidity
  else if i = 42 then d.WindSpeedMetersPerSecond
  else if i = 44 then d.WindDirectionDegrees
  else if i = 46 then d.BarometricPressure
  else 0

/-! ### Concrete inputs used by the claim theorems -/

/-- The data line quoted literally in the specification (48 whitespace
separated tokens). -/
def c3line : String := "2024 48 2 17 23 59 23.983 74.37 136.8 0 28.3 0 49.4 0 126.7 0 320.1 0 289.68 0 289.43 0 396.8 0 288.55 0 288.61 0 9.8 0 62.0 0 111.7 0 -76.7 0 35.0 0 15.1 0 29.0 0 5.1 0 106.8 0 903.6 0"

/-- A data line with exactly 29 tokens (a truncated record). -/
def line29 : String := "2024 48 2 17 23 59 23.983 74.37 136.8 0 28.3 0 49.4 0 126.7 0 320.1 0 289.68 0 289.43 0 396.8 0 288.55 0 288.61 0 9.8"

/-- A header line with 6 fields. -/
def hdr6 : String := "36.624 -116.019 1007 x y 1"

/-- A header line with exactly 3 fields. -/
def hdr3 : String := "40.05 -88.37 213"

/-- An entry whose raw-timestamp components all hold the sentinel values. -/
def rawSentinelEntry : Data :=
  { Data.empty with
    RawTimestamp := ⟨-9999, -9999, -9999, -9999, -9999, -9999, sentinelF⟩ }

def tempSentinelEntry : Data := { Data.empty with TemperatureC := mkRat (-99999) 10 }

/-- The literal line's tokens with a non-numeric token at position 8. -/
def fsBadTok : List String := (goFields c3line).set 8 "abc"

/-! ### Helper lemmas about the embedding -/

lemma mval_upd_7 (d : Data) (v : ℚ) (i : Nat) (h : ¬ i = 7) :
    mval { d with SolarZenithAngle := v } i = mval d i := by
  simp only [mval, if_neg h]

lemma mval_upd_8 (d : Data) (v : ℚ) (i : Nat) (h : ¬ i = 8) :
    mval { d with DownwellingSolar := v } i = mval d i := by
  simp only [mval, if_neg h]

lemma mval_upd_10 (d : Data) (v : ℚ) (i : Nat) (h : ¬ i = 10) :
    mval { d with UpwellingSolar := v } i = mval d i := by
  simp only [mval, if_neg h]

lemma mval_upd_12 (d : Data) (v : ℚ) (i : Nat) (h : ¬ i = 12) :
    mval { d with DirectNormalSolar := v } i = mval d i := by
  simp only [mval, if_neg h]

lemma mval_upd_14 (d : Data) (v : ℚ) (i : Nat) (h : ¬ i = 14) :
    mval { d with DownwellingDiffuseSolar := v } i = mval d i := by
  simp only [mval, if_neg h]

lemma mval_upd_16 (d : Data) (v : ℚ) (i : Nat) (h : ¬ i = 16) :
    mval { d with DownwellingIR := v } i = mval d i := by
  simp only [mval, if_neg h]

lemma mval_upd_18 (d : Data) (v : ℚ) (i : Nat) (h : ¬ i = 18) :
    mval { d with DownwellingIRCaseTemp := v } i = mval d i := by
  simp only [mval, if_neg h]

lemma mval_upd_20 (d : Data) (v : ℚ) (i : Nat) (h : ¬ i = 20) :
    mval { d with DownwellingIRDomeTemp := v } i = mval d i := by
  simp only [mval, if_neg h]

lemma mval_upd_22 (d : Data) (v : ℚ) (i : Nat) (h : ¬ i = 22) :
    mval { d with UpwellingIR := v } i = mval d i := by
  simp only [mval, if_neg h]

lemma mval_upd_24 (d : Data) (v : ℚ) (i : Nat) (h : ¬ i = 24) :
    mval { d with UpwellingIRCaseTemp := v } i = mval d i := by
  simp only [mval, if_neg h]

lemma mval_upd_26 (d : Data) (v : ℚ) (i : Nat) (h : ¬ i = 26) :
    mval { d with UpwellingIRDomeTemp := v } i = mval d i := by
  simp only [mval, if_neg h]

lemma mval_upd_28 (d : Data) (v : ℚ) (i : Nat) (h : ¬ i = 28) :
    mval { d with GlobalUVB := v } i = mval d i := by
  simp only [mval, if_neg h]

lemma mval_upd_30 (d : Data) (v : ℚ) (i : Nat) (h : ¬ i = 30) :
    mval { d with PhotosyntheticallyActiveRadiation := v } i = mval d i := by
  simp only [mval, if_neg h]

lemma mval_upd_32 (d : Data) (v : ℚ) (i : Nat) (h : ¬ i = 32) :
    mval { d with NetSolar := v } i = mval d i := by
  simp only [mval, if_neg h]

lemma mval_upd_34 (d : Data) (v : ℚ) (i : Nat) (h : ¬ i = 34) :
    mval { d with NetIR := v } i = mval d i := by
  simp only [mval, if_neg h]

lemma mval_upd_36 (d : Data) (v : ℚ) (i : Nat) (h : ¬ i = 36) :
    mval { d with TotalNetRadiation := v } i = mval d i := by
  simp only [mval, if_neg h]

lemma mval_upd_38 (d : Data) (v : ℚ) (i : Nat) (h : ¬ i = 38) :
    mval { d with TemperatureC := v } i = mval d i := by
  simp only [mval, if_neg h]

lemma mval_upd_40 (d : Data) (v : ℚ) (i : Nat) (h : ¬ i = 40) :
    mval { d with RelativeHumidity := v } i = mval d i := by
  simp only [mval, if_neg h]

lemma mval_upd_42 (d : Data) (v : ℚ) (i : Nat) (h : ¬ i = 42) :
    mval { d with WindSpeedMetersPerSecond := v } i = mval d i := by
  simp only [mval, if_neg h]

lemma mval_upd_44 (d : Data) (v : ℚ) (i : Nat) (h : ¬ i = 44) :
    mval { d with WindDirectionDegrees := v } i = mval d i := by
  simp only [mval, if_neg h]

lemma mval_upd_46 (d : Data) (v : ℚ) (i : Nat) (h : ¬ i = 46) :
    mval { d with BarometricPressure := v } i = mval d i := by
  simp only [mval, if_neg h]

lemma mval_applyField_other (d : Data) (k i : Nat) (t : String) (hk : ¬ k = i) :
    mval (applyField d k t) i = mval d i := by
  by_cases h7 : k = 7
  · subst h7
    exact mval_upd_7 d (parseFloat t) i (fun hh => hk hh.symm)
  by_cases h8 : k = 8
  · subst h8
    exact mval_upd_8 d (parseFloat t) i (fun hh => hk hh.symm)
  by_cases h10 : k = 10
  · subst h10
    exact mval_upd_10 d (parseFloat t) i (fun hh => hk hh.symm)
  by_cases h12 : k = 12
  · subst h12
    exact mval_upd_12 d (parseFloat t) i (fun hh => hk hh.symm)
  by_cases h14 : k = 14
  · subst h14
    exact mval_upd_14 d (parseFloat t) i (fun hh => hk hh.symm)
  by_cases h16 : k = 16
  · subst h16
    exact mval_upd_16 d (parseFloat t) i (fun hh => hk hh.symm)
  by_cases h18 : k = 18
  · subst h18
    exact mval_upd_18 d (parseFloat t) i (fun hh => hk hh.symm)
  by_cases h20 : k = 20
  · subst h20
    exact mval_upd_20 d (parseFloat t) i (fun hh => hk hh.symm)
  by_cases h22 : k = 22
  · subst h22
    exact mval_upd_22 d (parseFloat t) i (fun hh => hk hh.symm)
  by_cases h24 : k = 24
  · subst h24
    exact mval_upd_24 d (parseFloat t) i (fun hh => hk hh.symm)
  by_cases h26 : k = 26
  · subst h26
    exact mval_upd_26 d (parseFloat t) i (fun hh => hk hh.symm)
  by_cases h28 : k = 28
  · subst h28
    exact mval_upd_28 d (parseFloat t) i (fun hh => hk hh.symm)
  by_cases h30 : k = 30
  · subst h30
    exact mval_upd_30 d (parseFloat t) i (fun hh => hk hh.symm)
  by_cases h32 : k = 32
  · subst h32
    exact mval_upd_32 d (parseFloat t) i (fun hh => hk hh.symm)
  by_cases h34 : k = 34
  · subst h34
    exact mval_upd_34 d (parseFloat t) i (fun hh => hk hh.symm)
  by_cases h36 : k = 36
  · subst h36
    exact mval_upd_36 d (parseFloat t) i (fun hh => hk hh.symm)
  by_cases h38 : k = 38
  · subst h38
    exact mval_upd_38 d (parseFloat t) i (fun hh => hk hh.symm)
  by_cases h40 : k = 40
  · subst h40
    exact mval_upd_40 d (parseFloat t) i (fun hh => hk hh.symm)
  by_cases h42 : k = 42
  · subst h42
    exact mval_upd_42 d (parseFloat t) i (fun hh => hk hh.symm)
  by_cases h44 : k = 44
  · subst h44
    exact mval_upd_44 d (parseFloat t) i (fun hh => hk hh.symm)
  by_cases h46 : k = 46
  · subst h46
    exact mval_upd_46 d (parseFloat t) i (fun hh => hk hh.symm)
  have hd : applyField d k t = d := by
    simp only [applyField, if_neg h7, if_neg h8, if_neg h10, if_neg h12, if_neg h14, if_neg h16, if_neg h18, if_neg h20, if_neg h22, if_neg h24, if_neg h26, if_neg h28, if_neg h30, if_neg h32, if_neg h34, if_neg h36, if_neg h38, if_neg h40, if_neg h42, if_neg h44, if_neg h46]
  rw [hd]

lemma mval_applyField_self (i : Nat) (hi : i ∈ measPositions) (d : Data) (t : String) :
    mval (applyField d i t) i = parseFloat t := by
  fin_cases hi <;> rfl

lemma mval_empty (i : Nat) : mval Data.empty i = 0 := by
  by_cases h7 : i = 7
  · subst h7; rfl
  by_cases h8 : i = 8
  · subst h8; rfl
  by_cases h10 : i = 10
  · subst h10; rfl
  by_cases h12 : i = 12
  · subst h12; rfl
  by_cases h14 : i = 14
  · subst h14; rfl
  by_cases h16 : i = 16
  · subst h16; rfl
  by_cases h18 : i = 18
  · subst h18; rfl
  by_cases h20 : i = 20
  · subst h20; rfl
  by_cases h22 : i = 22
  · subst h22; rfl
  by_cases h24 : i = 24
  · subst h24; rfl
  by_cases h26 : i = 26
  · subst h26; rfl
  by_cases h28 : i = 28
  · subst h28; rfl
  by_cases h30 : i = 30
  · subst h30; rfl
  by_cases h32 : i = 32
  · subst h32; rfl
  by_cases h34 : i = 34
  · subst h34; rfl
  by_cases h36 : i = 36
  · subst h36; rfl
  by_cases h38 : i = 38
  · subst h38; rfl
  by_cases h40 : i = 40
  · subst h40; rfl
  by_cases h42 : i = 42
  · subst h42; rfl
  by_cases h44 : i = 44
  · subst h44; rfl
  by_cases h46 : i = 46
  · subst h46; rfl
  simp only [mval, if_neg h7, if_neg h8, if_neg h10, if_neg h12, if_neg h14, if_neg h16, if_neg h18, if_neg h20, if_neg h22, if_neg h24, if_neg h26, if_neg h28, if_neg h30, if_neg h32, if_neg h34, if_neg h36, if_neg h38, if_neg h40, if_neg h42, if_neg h44, if_neg h46]

lemma applyField_ge47 (d : Data) (k : Nat) (t : String) (h : 47 ≤ k) :
    applyField d k t = d := by
  simp only [applyField, if_neg (show ¬ k = 7 by omega), if_neg (show ¬ k = 8 by omega), if_neg (show ¬ k = 10 by omega), if_neg (show ¬ k = 12 by omega), if_neg (show ¬ k = 14 by omega), if_neg (show ¬ k = 16 by omega), if_neg (show ¬ k = 18 by omega), if_neg (show ¬ k = 20 by omega), if_neg (show ¬ k = 22 by omega), if_neg (show ¬ k = 24 by omega), if_neg (show ¬ k = 26 by omega), if_neg (show ¬ k = 28 by omega), if_neg (show ¬ k = 30 by omega), if_neg (show ¬ k = 32 by omega), if_neg (show ¬ k = 34 by omega), if_neg (show ¬ k = 36 by omega), if_neg (show ¬ k = 38 by omega), if_neg (show ¬ k = 40 by omega), if_neg (show ¬ k = 42 by omega), if_neg (show ¬ k = 44 by omega), if_neg (show ¬ k = 46 by omega)]

lemma mval_omit (d : Data) (i : Nat) :
    mval (OmitInvalidOrMissing d) i = normF (mval d i) := by
  by_cases h7 : i = 7
  · subst h7; rfl
  by_cases h8 : i = 8
  · subst h8; rfl
  by_cases h10 : i = 10
  · subst h10; rfl
  by_cases h12 : i = 12
  · subst h12; rfl
  by_cases h14 : i = 14
  · subst h14; rfl
  by_cases h16 : i = 16
  · subst h16; rfl
  by_cases h18 : i = 18
  · subst h18; rfl
  by_cases h20 : i = 20
  · subst h20; rfl
  by_cases h22 : i = 22
  · subst h22; rfl
  by_cases h24 : i = 24
  · subst h24; rfl
  by_cases h26 : i = 26
  · subst h26; rfl
  by_cases h28 : i = 28
  · subst h28; rfl
  by_cases h30 : i = 30
  · subst h30; rfl
  by_cases h32 : i = 32
  · subst h32; rfl
  by_cases h34 : i = 34
  · subst h34; rfl
  by_cases h36 : i = 36
  · subst h36; rfl
  by_cases h38 : i = 38
  · subst h38; rfl
  by_cases h40 : i = 40
  · subst h40; rfl
  by_cases h42 : i = 42
  · subst h42; rfl
  by_cases h44 : i = 44
  · subst h44; rfl
  by_cases h46 : i = 46
  · subst h46; rfl
  have h0 : mval (OmitInvalidOrMissing d) i = 0 := by
    simp only [mval, if_neg h7, if_neg h8, if_neg h10, if_neg h12, if_neg h14, if_neg h16, if_neg h18, if_neg h20, if_neg h22, if_neg h24, if_neg h26, if_neg h28, if_neg h30, if_neg h32, if_neg h34, if_neg h36, if_neg h38, if_neg h40, if_neg h42, if_neg h44, if_neg h46]
  have h1 : mval d i = 0 := by
    simp only [mval, if_neg h7, if_neg h8, if_neg h10, if_neg h12, if_neg h14, if_neg h16, if_neg h18, if_neg h20, if_neg h22, if_neg h24, if_neg h26, if_neg h28, if_neg h30, if_neg h32, if_neg h34, if_neg h36, if_neg h38, if_neg h40, if_neg h42, if_neg h44, if_neg h46]
  rw [h0, h1]
  decide

lemma mval_applyFields_high (fs : List String) :
    ∀ k d i, i < k → mval (applyFields d k fs) i = mval d i := by
  induction fs with
  | nil => intro k d i _; rfl
  | cons t rest ih =>
    intro k d i h
    show mval (applyFields (applyField d k t) (k + 1) rest) i = mval d i
    rw [ih (k + 1) _ i (by omega), mval_applyField_other d k i t (by omega)]

lemma mval_applyFields (i : Nat) (hi : i ∈ measPositions) (fs : List String) :
    ∀ k d, k ≤ i → i < k + fs.length →
      mval (applyFields d k fs) i = parseFloat (fs.getD (i - k) "") := by
  induction fs with
  | nil => intro k d h1 h2; simp at h2; omega
  | cons t rest ih =>
    intro k d h1 h2
    show mval (applyFields (applyField d k t) (k + 1) rest) i = _
    by_cases hk : k = i
    · subst hk
      rw [mval_applyFields_high rest (k + 1) _ k (by omega),
        mval_applyField_self k hi]
      simp
    · have hik : i - k = (i - (k + 1)) + 1 := by omega
      rw [ih (k + 1) (applyField d k t) (by omega)
        (by simp at h2 ⊢; omega), hik]
      simp
lemma mval_ts (d : Data) (fs : List String) (i : Nat) :
    mval (ParseTimestamp d fs).1 i = mval d i := by
  simp only [ParseTimestamp]
  by_cases c1 : fs.length < 7
  · rw [if_pos c1]
  rw [if_neg c1]
  by_cases c2 : (atoiOpt (fs.getD 0 "")).isNone = true
  · rw [if_pos c2]; rfl
  rw [if_neg c2]
  by_cases c3 : (atoiOpt (fs.getD 1 "")).isNone = true
  · rw [if_pos c3]; rfl
  rw [if_neg c3]
  by_cases c4 : (atoiOpt (fs.getD 2 "")).isNone = true
  · rw [if_pos c4]; rfl
  rw [if_neg c4]
  by_cases c5 : (atoiOpt (fs.getD 3 "")).isNone = true
  · rw [if_pos c5]; rfl
  rw [if_neg c5]
  by_cases c6 : (atoiOpt (fs.getD 4 "")).isNone = true
  · rw [if_pos c6]; rfl
  rw [if_neg c6]
  by_cases c7 : (atoiOpt (fs.getD 5 "")).isNone = true
  · rw [if_pos c7]; rfl
  rw [if_neg c7]
  rfl

lemma ParseTimestamp_append (d : Data) (fs extra : List String) (h : 7 ≤ fs.length) :
    ParseTimestamp d (fs ++ extra) = ParseTimestamp d fs := by
  have g0 : (fs ++ extra).getD 0 "" = fs.getD 0 "" := List.getD_append _ _ _ _ (by omega)
  have g1 : (fs ++ extra).getD 1 "" = fs.getD 1 "" := List.getD_append _ _ _ _ (by omega)
  have g2 : (fs ++ extra).getD 2 "" = fs.getD 2 "" := List.getD_append _ _ _ _ (by omega)
  have g3 : (fs ++ extra).getD 3 "" = fs.getD 3 "" := List.getD_append _ _ _ _ (by omega)
  have g4 : (fs ++ extra).getD 4 "" = fs.getD 4 "" := List.getD_append _ _ _ _ (by omega)
  have g5 : (fs ++ extra).getD 5 "" = fs.getD 5 "" := List.getD_append _ _ _ _ (by omega)
  have g6 : (fs ++ extra).getD 6 "" = fs.getD 6 "" := List.getD_append _ _ _ _ (by omega)
  have hl1 : ¬ (fs ++ extra).length < 7 := by rw [List.length_append]; omega
  have hl2 : ¬ fs.length < 7 := by omega
  simp only [ParseTimestamp, g0, g1, g2, g3, g4, g5, g6, if_neg hl1, if_neg hl2]

lemma applyFields_id (fs : List String) : ∀ k d, 47 ≤ k → applyFields d k fs = d := by
  induction fs with
  | nil => intro k d _; rfl
  | cons t rest ih =>
    intro k d h
    show applyFields (applyField d k t) (k + 1) rest = d
    rw [applyField_ge47 d k t h, ih (k + 1) d (by omega)]

lemma applyFields_append (extra : List String) (fs : List String) :
    ∀ k d, 47 ≤ k + fs.length → applyFields d k (fs ++ extra) = applyFields d k fs := by
  induction fs with
  | nil =>
    intro k d h
    simp only [List.nil_append]
    exact applyFields_id extra k d (by simpa using h)
  | cons t rest ih =>
    intro k d h
    show applyFields (applyField d k t) (k + 1) (rest ++ extra) =
      applyFields (applyField d k t) (k + 1) rest
    exact ih (k + 1) _ (by simp at h ⊢; omega)

lemma ParseLine_err_none (fs : List String) :
    (ParseLine fs).2 = none ↔
      ((ParseTimestamp Data.empty fs).2 = none ∧ 47 ≤ fs.length) := by
  rcases hts : ParseTimestamp Data.empty fs with ⟨d0, e⟩
  cases e with
  | some a => simp [ParseLine, hts]
  | none =>
    by_cases h47 : fs.length < 47 <;> simp [ParseLine, hts, h47]
    omega

lemma normT_eq (t : Int) : normT t = t := by
  unfold normT; split_ifs with h; exacts [h.symm, rfl]

lemma normT_idem (t : Int) : normT (normT t) = normT t := normT_eq (normT t)

lemma normF_idem (x : ℚ) : normF (normF x) = normF x := by
  unfold normF
  split_ifs <;> rfl

/-- `sentinelF` is the rational value of the decimal literal `-9999.9`. -/
lemma sentinelF_eq : sentinelF = -9999.9 := by
  rw [sentinelF, Rat.mkRat_eq_div]; norm_num

/-- Claim C10: parsing a completely empty input stream returns a `Station`
with empty station name, zero-valued location and version, and an empty
entry list, together with a nil aggregate error: the absent station-name
line and absent header line are not reported as errors. -/
theorem c10_empty_stream :
    ReadData [] = (Station.empty, []) ∧ Station.empty.StationName = "" ∧
    Station.empty.LocatedAt = ⟨0, 0, 0⟩ ∧ Station.empty.Version = 0 ∧
    Station.empty.Entries = [] :=
  ⟨rfl, rfl, rfl, rfl, rfl⟩

/-- Claim C6: for every one of the 7 station codes in the registry, looking
up the name succeeds and looking the code back up from that name returns the
same code, and symmetrically for the 7 canonical names; both lookups report
found (`some`). -/
theorem c6_registry_roundtrip :
    (StationIDToName.all fun p => (GetStationName p.1).bind GetStationID == some p.1) ∧
    (NameToStationID.all fun p => (GetStationID p.1).bind GetStationName == some p.1) := by
  decide

/-- Claim C7: the Sentinel Normalizer is idempotent: applying it twice to
any entry yields the same entry as applying it once. -/
theorem c7_normalizer_idempotent (d : Data) :
    OmitInvalidOrMissing (OmitInvalidOrMissing d) = OmitInvalidOrMissing d := by
  simp [OmitInvalidOrMissing, normF_idem, normT_idem]

/-- Claim C5: a data line whose whitespace split yields fewer than 29 tokens
contributes no entry and exactly one line-too-short error to the aggregate,
and the processing of all subsequent lines is unaffected (the loop continues
on the remaining lines with the next line number). -/
theorem c5_short_line (l : String) (rest : List String) (lineNo : Nat)
    (h : (goFields l).length < 29) :
    processLines (l :: rest) lineNo =
      ((processLines rest (lineNo + 1)).1,
        Err.shortLine (lineNo + 1) :: (processLines rest (lineNo + 1)).2) := by
  simp only [processLines, if_pos h]

/-- Witness for C5 at the concrete 3-token line. -/
theorem c5_short_line_witness :
    (goFields "1 2 3").length < 29 ∧
    processLines ["1 2 3"] 0 =
      ((processLines [] 1).1, Err.shortLine 1 :: (processLines [] 1).2) :=
  ⟨by decide, c5_short_line "1 2 3" [] 0 (by decide)⟩

/-- Counterexample for Claim C3 as stated: the literal input line of the
specification splits into 48 tokens, not 55. -/
theorem c3_counterexample :
    (goFields c3line).length = 48 ∧ (goFields c3line).length ≠ 55 := by decide

/-- Claim C3 (amended: the literal line has 48 tokens, not 55): decoding the
literal input line succeeds with no error, `SolarZenithAngle = 74.37`
(position 7), `DownwellingSolar = 136.8` (position 8),
`TemperatureC = 15.1` (position 38), the derived timestamp equals
`time.Date(2024, 2, 17, 23, 59, 0, 0, UTC)` (concretely 63843811140 seconds
since 0001-01-01T00:00:00Z, i.e. 2024-02-17T23:59:00Z), and the odd
quality-control positions 9, 11, ..., 47 are ignored by the decoder. -/
theorem c3_amended :
    (ParseLine (goFields c3line)).2 = none ∧
    (ParseLine (goFields c3line)).1.SolarZenithAngle = 74.37 ∧
    (ParseLine (goFields c3line)).1.DownwellingSolar = 136.8 ∧
    (ParseLine (goFields c3line)).1.TemperatureC = 15.1 ∧
    (ParseLine (goFields c3line)).1.Timestamp = goDate 2024 2 17 23 59 0 ∧
    goDate 2024 2 17 23 59 0 = 63843811140 ∧
    (∀ (d : Data) (t : String),
      applyField d 9 t = d ∧ applyField d 11 t = d ∧ applyField d 13 t = d ∧
      applyField d 15 t = d ∧ applyField d 17 t = d ∧ applyField d 19 t = d ∧
      applyField d 21 t = d ∧ applyField d 23 t = d ∧ applyField d 25 t = d ∧
      applyField d 27 t = d ∧ applyField d 29 t = d ∧ applyField d 31 t = d ∧
      applyField d 33 t = d ∧ applyField d 35 t = d ∧ applyField d 37 t = d ∧
      applyField d 39 t = d ∧ applyField d 41 t = d ∧ applyField d 43 t = d ∧
      applyField d 45 t = d ∧ applyField d 47 t = d) := by
  refine ⟨by decide, ?_, ?_, ?_, by decide, by decide, ?_⟩
  · rw [show (74.37 : ℚ) = mkRat 7437 100 from by rw [Rat.mkRat_eq_div]; norm_num]
    decide
  · rw [show (136.8 : ℚ) = mkRat 1368 10 from by rw [Rat.mkRat_eq_div]; norm_num]
    decide
  · rw [show (15.1 : ℚ) = mkRat 151 10 from by rw [Rat.mkRat_eq_div]; norm_num]
    decide
  · intro d t
    exact ⟨rfl, rfl, rfl, rfl, rfl, rfl, rfl, rfl, rfl, rfl,
      rfl, rfl, rfl, rfl, rfl, rfl, rfl, rfl, rfl, rfl⟩

/-- Counterexample for Claim C1 as stated: for the concrete 29-token line,
the decoder does return the incomplete-record error and the error is
recorded in the aggregate, but the Stream Reader does NOT append the entry:
the entry list stays empty. -/
theorem c1_counterexample :
    29 ≤ (goFields line29).length ∧ (goFields line29).length ≤ 46 ∧
    (ParseLine (goFields line29)).2 = some (Err.incompleteRecord (goFields line29)) ∧
    (ReadData ["Desert Rock", hdr6, line29]).1.Entries = [] ∧
    (ReadData ["Desert Rock", hdr6, line29]).2 =
      [Err.incompleteRecord (goFields line29)] := by
  refine ⟨by decide, by decide, by decide, by decide, by decide⟩

/-- Claim C1 (amended: the entry is discarded, not kept): for every data
line with 29 to 46 tokens whose timestamp prefix parses, the Line Decoder
returns the partially populated entry together with the non-fatal
incomplete-record error, and the Stream Reader records the error, does not
append the entry, and continues with the next line. -/
theorem c1_amended (l : String) (rest : List String) (lineNo : Nat)
    (h29 : 29 ≤ (goFields l).length) (h46 : (goFields l).length ≤ 46)
    (hts : (ParseTimestamp Data.empty (goFields l)).2 = none) :
    (ParseLine (goFields l)).2 = some (Err.incompleteRecord (goFields l)) ∧
    processLines (l :: rest) lineNo =
      ((processLines rest (lineNo + 1)).1,
        Err.incompleteRecord (goFields l) :: (processLines rest (lineNo + 1)).2) := by
  rcases hp : ParseTimestamp Data.empty (goFields l) with ⟨d0, e⟩
  rw [hp] at hts
  simp only at hts
  subst hts
  have hpl : ParseLine (goFields l) =
      (OmitInvalidOrMissing (applyFields d0 0 (goFields l)),
        some (Err.incompleteRecord (goFields l))) := by
    simp only [ParseLine, hp]
    rw [if_pos (by omega : (goFields l).length < 47)]
  refine ⟨by rw [hpl], ?_⟩
  simp only [processLines]
  rw [if_neg (by omega : ¬ (goFields l).length < 29), hpl]

/-- Witness for C1 (amended) at the concrete 29-token line. -/
theorem c1_amended_witness :
    29 ≤ (goFields line29).length ∧ (goFields line29).length ≤ 46 ∧
    (ParseTimestamp Data.empty (goFields line29)).2 = none ∧
    ((ParseLine (goFields line29)).2 = some (Err.incompleteRecord (goFields line29)) ∧
      processLines [line29] 5 =
        ((processLines [] 6).1,
          Err.incompleteRecord (goFields line29) :: (processLines [] 6).2)) :=
  ⟨by decide, by decide, by decide,
    c1_amended line29 [] 5 (by decide) (by decide) (by decide)⟩

/-- Counterexample for Claim C4 as stated: the normalizer leaves the
raw-timestamp components untouched, so an entry whose raw-timestamp year is
the integer sentinel `-9999` (and whose decimal-time is `-9999.9`) keeps
those sentinels instead of holding `0`. -/
theorem c4_counterexample :
    (OmitInvalidOrMissing rawSentinelEntry).RawTimestamp.Year = -9999 ∧
    (OmitInvalidOrMissing rawSentinelEntry).RawTimestamp.Decimal = -9999.9 ∧
    ((-9999 : Int) ≠ 0) ∧ ((-9999.9 : ℚ) ≠ 0) := by
  refine ⟨rfl, ?_, by decide, by norm_num⟩
  show sentinelF = -9999.9
  exact sentinelF_eq

/-- Claim C4 (amended: only the top-level `float64` measurement fields are
normalized; the raw-timestamp components are not visited by the reflection
loop): after the Sentinel Normalizer runs, every measurement field that
equalled exactly `-9999.9` holds `0`, all other measurement values are kept,
and the raw timestamp and derived timestamp are unchanged. -/
theorem c4_amended (d : Data) (i : Nat) (_hi : i ∈ measPositions) :
    (OmitInvalidOrMissing d).RawTimestamp = d.RawTimestamp ∧
    (OmitInvalidOrMissing d).Timestamp = d.Timestamp ∧
    mval (OmitInvalidOrMissing d) i =
      (if mval d i = -9999.9 then 0 else mval d i) := by
  refine ⟨rfl, normT_eq d.Timestamp, ?_⟩
  rw [mval_omit, ← sentinelF_eq]
  rfl

/-- Witness for C4 (amended) at a concrete entry holding the sentinel in
`TemperatureC` (position 38). -/
theorem c4_amended_witness :
    38 ∈ measPositions ∧
    ((OmitInvalidOrMissing tempSentinelEntry).RawTimestamp = tempSentinelEntry.RawTimestamp ∧
     (OmitInvalidOrMissing tempSentinelEntry).Timestamp = tempSentinelEntry.Timestamp ∧
     mval (OmitInvalidOrMissing tempSentinelEntry) 38 =
       (if mval tempSentinelEntry 38 = -9999.9 then 0 else mval tempSentinelEntry 38)) :=
  ⟨by decide, c4_amended tempSentinelEntry 38 (by decide)⟩

/-- Claim C8: a token at any mapped measurement position that fails
floating-point parsing yields the value 0 for that measurement, and it does
not by itself cause the decoder to return an error: the decoder returns no
error exactly when the timestamp prefix parses and the line has at least 47
tokens, independently of the measurement tokens. -/
theorem c8_lenient (fs : List String) (i : Nat) (hi : i ∈ measPositions)
    (hlt : i < fs.length) (hfail : parseFloatOpt (fs.getD i "") = none) :
    mval (ParseLine fs).1 i = 0 ∧
    ((ParseLine fs).2 = none ↔
      ((ParseTimestamp Data.empty fs).2 = none ∧ 47 ≤ fs.length)) := by
  refine ⟨?_, ParseLine_err_none fs⟩
  rcases hts : ParseTimestamp Data.empty fs with ⟨d0, e⟩
  cases e with
  | some a =>
    have h1 : (ParseLine fs).1 = d0 := by simp only [ParseLine, hts]
    have h2 : mval d0 i = mval Data.empty i := by
      have h3 := mval_ts Data.empty fs i
      rw [hts] at h3
      exact h3
    rw [h1, h2, mval_empty]
  | none =>
    have h1 : (ParseLine fs).1 = OmitInvalidOrMissing (applyFields d0 0 fs) := by
      simp only [ParseLine, hts]
    rw [h1, mval_omit, mval_applyFields i hi fs 0 d0 (by omega) (by omega)]
    have h4 : parseFloat (fs.getD (i - 0) "") = 0 := by
      simp only [Nat.sub_zero, parseFloat, hfail]
      rfl
    rw [h4]
    decide

/-- Witness for C8 at position 8 of a 48-token line with a malformed token. -/
theorem c8_lenient_witness :
    8 ∈ measPositions ∧ 8 < fsBadTok.length ∧
    parseFloatOpt (fsBadTok.getD 8 "") = none ∧
    (mval (ParseLine fsBadTok).1 8 = 0 ∧
      ((ParseLine fsBadTok).2 = none ↔
        ((ParseTimestamp Data.empty fsBadTok).2 = none ∧ 47 ≤ fsBadTok.length))) :=
  ⟨by decide, by decide, by decide,
    c8_lenient fsBadTok 8 (by decide) (by decide) (by decide)⟩

/-- Claim C9: the decoded entry depends only on tokens at positions 0-46:
for every token sequence with at least 47 tokens, appending any trailing
tokens yields the identical decoder result (same entry, same error). -/
theorem c9_trailing_tokens (fs extra : List String) (h : 47 ≤ fs.length) :
    ParseLine (fs ++ extra) = ParseLine fs := by
  have h7 : 7 ≤ fs.length := by omega
  rcases hts : ParseTimestamp Data.empty fs with ⟨d0, e⟩
  simp only [ParseLine, ParseTimestamp_append Data.empty fs extra h7, hts]
  cases e with
  | some a => rfl
  | none =>
    show (OmitInvalidOrMissing (applyFields d0 0 (fs ++ extra)),
        if (fs ++ extra).length < 47 then some (Err.incompleteRecord (fs ++ extra)) else none) =
      (OmitInvalidOrMissing (applyFields d0 0 fs),
        if fs.length < 47 then some (Err.incompleteRecord fs) else none)
    rw [applyFields_append extra fs 0 d0 (by omega)]
    rw [if_neg (show ¬ (fs ++ extra).length < 47 by rw [List.length_append]; omega),
        if_neg (show ¬ fs.length < 47 by omega)]

/-- Witness for C9: appending two extra tokens to the 48-token literal line
changes nothing. -/
theorem c9_trailing_tokens_witness :
    47 ≤ (goFields c3line).length ∧
    ParseLine (goFields c3line ++ ["9", "9"]) = ParseLine (goFields c3line) :=
  ⟨by decide, c9_trailing_tokens (goFields c3line) ["9", "9"] (by decide)⟩

/-- `ParseHeader` returns `ok = true` exactly for headers with at least 6
fields, never touches the entry list, and reports the header-length error
for every short header. -/
lemma ParseHeader_spec (s : Station) (hi : List String) :
    ((ParseHeader s hi).2.2 = true ↔ 6 ≤ hi.length) ∧
    (ParseHeader s hi).1.Entries = s.Entries ∧
    (hi.length < 6 → Err.invalidHeaderLength hi ∈ (ParseHeader s hi).2.1) := by
  simp only [ParseHeader]
  by_cases c0 : hi.length = 0
  · rw [if_pos c0]
    refine ⟨by simp; omega, rfl, fun h => ?_⟩
    rw [if_pos (by omega : hi.length < 6)]
    simp
  rw [if_neg c0]
  by_cases c1 : hi.length = 1
  · rw [if_pos c1]
    refine ⟨by simp; omega, rfl, fun h => ?_⟩
    rw [if_pos (by omega : hi.length < 6)]
    simp
  rw [if_neg c1]
  by_cases c2 : hi.length = 2
  · rw [if_pos c2]
    refine ⟨by simp; omega, rfl, fun h => ?_⟩
    rw [if_pos (by omega : hi.length < 6)]
    simp
  rw [if_neg c2]
  by_cases c3 : hi.length < 6
  · rw [if_pos c3]
    refine ⟨by simp; omega, rfl, fun h => ?_⟩
    rw [if_pos c3]
    simp
  rw [if_neg c3]
  refine ⟨by simp; omega, rfl, fun h => absurd h c3⟩

/-- Claim C2 (amended: the abort threshold is 6 header fields, not 3): the
Stream Reader aborts, ignores all data lines and returns an empty entry list
with a structural header error if and only if the header line splits into
fewer than 6 fields; with 6 or more fields parsing always continues to the
data lines (numeric parse failures are only recorded as errors). -/
theorem c2_amended (first hdr : String) (dataLines : List String) :
    ((goFields hdr).length < 6 →
      (ReadData (first :: hdr :: dataLines)).1.Entries = [] ∧
      ReadData (first :: hdr :: dataLines) = ReadData [first, hdr] ∧
      Err.invalidHeaderLength (goFields hdr) ∈ (ReadData (first :: hdr :: dataLines)).2) ∧
    (6 ≤ (goFields hdr).length →
      (ReadData (first :: hdr :: dataLines)).1.Entries = (processLines dataLines 0).1 ∧
      (ReadData (first :: hdr :: dataLines)).2 =
        (ReadData [first, hdr]).2 ++ (processLines dataLines 0).2) := by
  rcases hph : ParseHeader { Station.empty with StationName := trimSpace first }
      (goFields hdr) with ⟨st1, herrs, ok⟩
  have hspec := ParseHeader_spec { Station.empty with StationName := trimSpace first }
    (goFields hdr)
  rw [hph] at hspec
  simp only at hspec
  cases ok with
  | false =>
    have hlen : (goFields hdr).length < 6 := by
      rcases hspec.1 with ⟨h1, h2⟩
      by_contra hc
      exact Bool.false_ne_true (h2 (by omega))
    have hred : ReadData (first :: hdr :: dataLines) =
        (st1, (if ValidateStationName (trimSpace first) then []
          else [Err.invalidStationName (trimSpace first)]) ++ herrs) := by
      simp only [ReadData, hph]
      rw [if_neg Bool.false_ne_true]
    have hred2 : ReadData [first, hdr] =
        (st1, (if ValidateStationName (trimSpace first) then []
          else [Err.invalidStationName (trimSpace first)]) ++ herrs) := by
      simp only [ReadData, hph]
      rw [if_neg Bool.false_ne_true]
    constructor
    · intro _
      refine ⟨?_, by rw [hred, hred2], ?_⟩
      · rw [hred]
        exact hspec.2.1
      · rw [hred]
        exact List.mem_append.mpr (Or.inr (hspec.2.2 hlen))
    · intro hge
      omega
  | true =>
    have hge : 6 ≤ (goFields hdr).length := hspec.1.mp rfl
    have hred : ReadData (first :: hdr :: dataLines) =
        ({ st1 with Entries := (processLines dataLines 0).1 },
          ((if ValidateStationName (trimSpace first) then []
            else [Err.invalidStationName (trimSpace first)]) ++ herrs)
            ++ (processLines dataLines 0).2) := by
      simp only [ReadData, hph]
      rw [if_pos trivial]
    have hred2 : ReadData [first, hdr] =
        ({ st1 with Entries := (processLines ([] : List String) 0).1 },
          ((if ValidateStationName (trimSpace first) then []
            else [Err.invalidStationName (trimSpace first)]) ++ herrs)
            ++ (processLines ([] : List String) 0).2) := by
      simp only [ReadData, hph]
      rw [if_pos trivial]
    constructor
    · intro hlt
      omega
    · intro _
      refine ⟨by rw [hred], ?_⟩
      rw [hred, hred2]
      simp [processLines]

/-- Counterexample for Claim C2 as stated: a 3-field header aborts the
parse: the perfectly decodable data line after it yields no entry, and a
structural header error is recorded. -/
theorem c2_counterexample :
    3 ≤ (goFields hdr3).length ∧
    (ParseLine (goFields c3line)).2 = none ∧
    (ReadData ["Bondville", hdr3, c3line]).1.Entries = [] ∧
    Err.invalidHeaderLength (goFields hdr3) ∈ (ReadData ["Bondville", hdr3, c3line]).2 := by
  refine ⟨by decide, by decide, by decide, by decide⟩

/-- Witness for C2 (amended), covering both directions at concrete inputs. -/
theorem c2_amended_witness :
    ((ReadData ["Goodwin Creek", "1 2", "zz"]).1.Entries = [] ∧
      ReadData ["Goodwin Creek", "1 2", "zz"] = ReadData ["Goodwin Creek", "1 2"] ∧
      Err.invalidHeaderLength (goFields "1 2") ∈
        (ReadData ["Goodwin Creek", "1 2", "zz"]).2) ∧
    ((ReadData ["Fort Peck", hdr6, line29]).1.Entries = (processLines [line29] 0).1 ∧
      (ReadData ["Fort Peck", hdr6, line29]).2 =
        (ReadData ["Fort Peck", hdr6]).2 ++ (processLines [line29] 0).2) :=
  ⟨(c2_amended "Goodwin Creek" "1 2" ["zz"]).1 (by decide),
   (c2_amended "Fort Peck" hdr6 [line29]).2 (by decide)⟩

